import Mathlib

/-!
Shallow embedding of the render-resource identity/lifetime wrapper layer
(crates/bevy_render/src/render_resource/texture.rs).

Native wgpu handles are modelled as inductive token types; the foreign
view-creation call is a free constructor, so the term records exactly which
texture and descriptor were passed. Shared ownership and release order are
modelled by an explicit state: a reference-count map addressed by allocation
order, plus a trace of released addresses in release order. Every wrapper
operation from the source is a state-passing function.
-/

/-- Descriptor passed to native view creation. Opaque here; only its identity
matters. The source passes Default::default() when deriving a view from a
swapchain frame, modelled by the Inhabited default. -/
structure TextureViewDescriptor where
  code : Nat
deriving DecidableEq, Repr

instance : Inhabited TextureViewDescriptor :=
  ⟨⟨0⟩⟩

/-- Opaque native texture handle (wgpu::Texture). -/
inductive wgpu.Texture where
  | raw (token : Nat)
deriving DecidableEq, Repr

/-- Opaque native texture-view handle (wgpu::TextureView). A view is either a
raw token handed in from outside, or the recorded result of the native
create_view call on a texture with a descriptor. -/
inductive wgpu.TextureView where
  | raw (token : Nat)
  | ofCreateView (tex : wgpu.Texture) (desc : TextureViewDescriptor)
deriving DecidableEq, Repr

/-- The native view-creation call: wgpu::Texture::create_view. Modelled as the
free constructor, so the result records the receiver and descriptor. -/
def wgpu.Texture.create_view (t : wgpu.Texture) (desc : TextureViewDescriptor) :
    wgpu.TextureView :=
  wgpu.TextureView.ofCreateView t desc

/-- Opaque native swapchain frame (wgpu::SurfaceTexture). Its texture field is
the frame-owned texture that views are derived from; token distinguishes
frames that happen to carry equal textures. -/
structure wgpu.SurfaceTexture where
  texture : wgpu.Texture
  token : Nat
deriving DecidableEq, Repr

/-- Opaque native sampler handle (wgpu::Sampler). -/
inductive wgpu.Sampler where
  | raw (token : Nat)
deriving DecidableEq, Repr

/-- Modelled from the spec (section 4.2): the shared-ownership state behind the
erased handles produced by the render_resource_wrapper macro, whose definition
(resource_macros.rs) is not part of this fragment. next is the next fresh
allocation address; counts maps each address to its live clone count (0 means
no live clone); released lists, in release order, the addresses whose native
resource has been handed back to the graphics API; nextId is the fresh-identity
counter standing in for Uuid::new_v4 of bevy_utils (also outside the fragment;
the spec allows a monotonic unique generator). -/
structure RcState where
  next : Nat
  counts : Nat → Nat
  released : List Nat
  nextId : Nat

/-- Well-formed states: no live count or recorded release at an address that
has not been allocated yet, and no address is both live and released
(addresses are never reused, so a released allocation stays dead). -/
def RcState.WF (s : RcState) : Prop :=
  (∀ a, s.next ≤ a → s.counts a = 0) ∧ (∀ a ∈ s.released, a < s.next) ∧
    (∀ a, 0 < s.counts a → a ∉ s.released)

/-- The empty initial state. -/
def RcState.init : RcState :=
  ⟨0, fun _ => 0, [], 0⟩

/-- Modelled from the spec (section 4.1): new_identity, standing in for
Uuid::new_v4. Returns the current counter value and bumps it. -/
def RcState.freshId (s : RcState) : Nat × RcState :=
  (s.nextId, { s with nextId := s.nextId + 1 })

/-- Modelled from the spec (section 4.2): an erased handle as produced by the
render_resource_wrapper macro. addr identifies the shared allocation; value is
the native resource it owns. Clones share addr. -/
structure ErasedHandle (T : Type) where
  addr : Nat
  value : T
deriving DecidableEq, Repr

/-- Modelled from the spec (section 4.2): wrap takes ownership of the native
value and returns a handle with clone count 1 at a fresh address. -/
def ErasedHandle.new (v : T) (s : RcState) : ErasedHandle T × RcState :=
  (⟨s.next, v⟩,
    { s with
      next := s.next + 1
      counts := fun a => if a = s.next then 1 else s.counts a })

/-- Modelled from the spec (section 4.2): cloning increments the shared count;
both handles refer to the same allocation. -/
def ErasedHandle.clone (h : ErasedHandle T) (s : RcState) :
    ErasedHandle T × RcState :=
  (h, { s with counts := fun a => if a = h.addr then s.counts a + 1 else s.counts a })

/-- Dropping one owning reference to the allocation at address a: the count
decrements, and when the last reference goes the native resource is released,
recorded by appending a to the release trace. A dead address is a no-op. -/
def RcState.dropAddr (s : RcState) (a : Nat) : RcState :=
  if s.counts a = 0 then s
  else if s.counts a = 1 then
    { s with
      counts := fun x => if x = a then 0 else s.counts x
      released := s.released ++ [a] }
  else
    { s with counts := fun x => if x = a then s.counts a - 1 else s.counts x }

/-- Modelled from the spec (section 4.2): try_unwrap consumes the handle. If it
is the sole reference the native value is returned and ownership moves out
(the allocation dies without a release event, since the caller now owns the
native resource). Otherwise nothing is returned and only this reference is
dropped; the resource is not released. -/
def ErasedHandle.tryUnwrap (h : ErasedHandle T) (s : RcState) :
    Option T × RcState :=
  if s.counts h.addr = 1 then
    (some h.value, { s with counts := fun x => if x = h.addr then 0 else s.counts x })
  else
    (none, s.dropAddr h.addr)

/-- Modelled from the spec (section 4.2): deref succeeds while any clone is
alive, yielding the shared native value. -/
def ErasedHandle.derefAlive (h : ErasedHandle T) (s : RcState) : Option T :=
  if 0 < s.counts h.addr then some h.value else none

/-- ErasedTexture from render_resource_wrapper!(ErasedTexture, wgpu::Texture).
Modelled from the spec, the macro body being outside this fragment. -/
abbrev ErasedTexture := ErasedHandle wgpu.Texture

/-- ErasedTextureView from
render_resource_wrapper!(ErasedTextureView, wgpu::TextureView). -/
abbrev ErasedTextureView := ErasedHandle wgpu.TextureView

/-- ErasedSurfaceTexture from
render_resource_wrapper!(ErasedSurfaceTexture, wgpu::SurfaceTexture). -/
abbrev ErasedSurfaceTexture := ErasedHandle wgpu.SurfaceTexture

/-- ErasedSampler from render_resource_wrapper!(ErasedSampler, wgpu::Sampler). -/
abbrev ErasedSampler := ErasedHandle wgpu.Sampler

/-- TextureId: identifier of a Texture (wraps a Uuid in the source). -/
structure TextureId where
  uuid : Nat
deriving DecidableEq, Repr

/-- TextureViewId: identifier of a TextureView. -/
structure TextureViewId where
  uuid : Nat
deriving DecidableEq, Repr

/-- SamplerId: identifier of a Sampler. -/
structure SamplerId where
  uuid : Nat
deriving DecidableEq, Repr

/-- Texture: identity plus erased native texture. -/
structure Texture where
  id : TextureId
  value : ErasedTexture
deriving DecidableEq, Repr

/-- TextureViewValue: the payload of a TextureView. The surfaceTexture variant
lists view before texture, mirroring the field declaration order in the
source enum, whose NOTE records that the view must be dropped before the
frame; Rust drops struct and enum fields in declaration order. -/
inductive TextureViewValue where
  | textureView (value : ErasedTextureView)
  | surfaceTexture (view : ErasedTextureView) (texture : ErasedSurfaceTexture)
deriving DecidableEq, Repr

/-- TextureView: identity plus payload. -/
structure TextureView where
  id : TextureViewId
  value : TextureViewValue
deriving DecidableEq, Repr

/-- Sampler: identity plus erased native sampler. -/
structure Sampler where
  id : SamplerId
  value : ErasedSampler
deriving DecidableEq, Repr

/-- impl From of wgpu::Texture for Texture: fresh identity, erase the handle.
The struct literal evaluates the id field before the value field. -/
def Texture.fromNative (v : wgpu.Texture) (s : RcState) : Texture × RcState :=
  let p := s.freshId
  let q := ErasedHandle.new v p.2
  (⟨⟨p.1⟩, q.1⟩, q.2)

/-- Texture::id. -/
def Texture.idOf (t : Texture) : TextureId :=
  t.id

/-- impl Deref for Texture: borrows the underlying native texture. -/
def Texture.deref (t : Texture) : wgpu.Texture :=
  t.value.value

/-- impl From of wgpu::TextureView for TextureView: fresh identity, Plain
variant wrapping the erased view. -/
def TextureView.fromView (v : wgpu.TextureView) (s : RcState) :
    TextureView × RcState :=
  let p := s.freshId
  let q := ErasedHandle.new v p.2
  (⟨⟨p.1⟩, TextureViewValue.textureView q.1⟩, q.2)

/-- impl From of wgpu::SurfaceTexture for TextureView: first derives the native
view from the frame with default parameters and erases it, then erases the
frame, then draws the fresh identity, exactly in source statement order. The
result is the SurfaceTexture (frame-backed) variant. -/
def TextureView.fromFrame (f : wgpu.SurfaceTexture) (s : RcState) :
    TextureView × RcState :=
  let pv := ErasedHandle.new (f.texture.create_view default) s
  let pt := ErasedHandle.new f pv.2
  let pi := pt.2.freshId
  (⟨⟨pi.1⟩, TextureViewValue.surfaceTexture pv.1 pt.1⟩, pi.2)

/-- Texture::create_view: delegates to the native create_view of the
underlying texture with the given descriptor and wraps the result via
From of wgpu::TextureView (Plain variant, fresh identity). -/
def Texture.create_view (t : Texture) (desc : TextureViewDescriptor)
    (s : RcState) : TextureView × RcState :=
  TextureView.fromView (t.value.value.create_view desc) s

/-- TextureView::id. -/
def TextureView.idOf (tv : TextureView) : TextureViewId :=
  tv.id

/-- impl Deref for TextureView: yields the native view in both variants, the
stored view for Plain and the derived view for the frame-backed variant. -/
def TextureView.deref (tv : TextureView) : wgpu.TextureView :=
  match tv.value with
  | TextureViewValue.textureView h => h.value
  | TextureViewValue.surfaceTexture view _ => view.value

/-- TextureView::take_surface_texture: consumes self. The patterns move
nothing but the frame handle: the wildcard in the Plain arm and the rest
pattern in the frame-backed arm leave the erased view in self, and Rust drops
fields a pattern leaves behind at the scope exit of their owner, not at the
destructuring. So on the frame-backed arm try_unwrap runs first on the frame
handle and the view handle is dropped afterwards, when self goes out of scope
at the end of the function; on the Plain arm None is computed and the view
handle is dropped at the same scope exit. -/
def TextureView.take_surface_texture (tv : TextureView) (s : RcState) :
    Option wgpu.SurfaceTexture × RcState :=
  match tv.value with
  | TextureViewValue.textureView h => (none, s.dropAddr h.addr)
  | TextureViewValue.surfaceTexture view texture =>
    let p := texture.tryUnwrap s
    (p.1, p.2.dropAddr view.addr)

/-- The two operations of take_surface_texture whose relative order matters:
dropping an erased view handle and attempting try_unwrap on a frame handle. -/
inductive TakeEvent where
  | dropViewHandle (addr : Nat)
  | unwrapAttempt (addr : Nat)
deriving DecidableEq, Repr

/-- The execution order of those operations inside
TextureView::take_surface_texture, read off the source: both arms leave the
erased view in self, so its drop happens at function scope exit, after the
frame-backed arm has already run try_unwrap. -/
def TextureView.take_surface_texture_events (tv : TextureView) :
    List TakeEvent :=
  match tv.value with
  | TextureViewValue.textureView h => [TakeEvent.dropViewHandle h.addr]
  | TextureViewValue.surfaceTexture view texture =>
    [TakeEvent.unwrapAttempt texture.addr, TakeEvent.dropViewHandle view.addr]

/-- a happens strictly before b in the event list l. -/
abbrev eventBefore (l : List TakeEvent) (a b : TakeEvent) : Prop :=
  a ∈ l ∧ b ∈ l ∧ l.indexOf a < l.indexOf b

/-- derive(Clone) on TextureViewValue: clones the erased handles inside the
same variant; the frame-backed variant clones the view field first, then the
texture field (declaration order). -/
def TextureViewValue.clone (v : TextureViewValue) (s : RcState) :
    TextureViewValue × RcState :=
  match v with
  | TextureViewValue.textureView h =>
    let p := h.clone s
    (TextureViewValue.textureView p.1, p.2)
  | TextureViewValue.surfaceTexture view texture =>
    let pv := view.clone s
    let pt := texture.clone pv.2
    (TextureViewValue.surfaceTexture pv.1 pt.1, pt.2)

/-- derive(Clone) on TextureView: the Copy identity is duplicated unchanged;
the payload is cloned. -/
def TextureView.clone (tv : TextureView) (s : RcState) :
    TextureView × RcState :=
  let p := tv.value.clone s
  (⟨tv.id, p.1⟩, p.2)

/-- derive(Clone) on Texture. -/
def Texture.clone (t : Texture) (s : RcState) : Texture × RcState :=
  let p := t.value.clone s
  (⟨t.id, p.1⟩, p.2)

/-- Dropping a TextureView with no references taken out: the Copy identity
needs no drop; the payload handles are dropped in field declaration order,
so in the frame-backed variant the view is dropped before the frame. -/
def TextureView.drop (tv : TextureView) (s : RcState) : RcState :=
  match tv.value with
  | TextureViewValue.textureView h => s.dropAddr h.addr
  | TextureViewValue.surfaceTexture view texture =>
    (s.dropAddr view.addr).dropAddr texture.addr

/-- impl From of wgpu::Sampler for Sampler: fresh identity, erase. -/
def Sampler.fromNative (v : wgpu.Sampler) (s : RcState) : Sampler × RcState :=
  let p := s.freshId
  let q := ErasedHandle.new v p.2
  (⟨⟨p.1⟩, q.1⟩, q.2)

/-- derive(Clone) on Sampler. -/
def Sampler.clone (sm : Sampler) (s : RcState) : Sampler × RcState :=
  let p := sm.value.clone s
  (⟨sm.id, p.1⟩, p.2)

/-- The two ways a TextureView is constructed from a native value: From a
native view, or From a native swapchain frame. -/
inductive TextureViewSource where
  | view (v : wgpu.TextureView)
  | frame (f : wgpu.SurfaceTexture)
deriving DecidableEq, Repr

/-- Run whichever TextureView conversion constructor the source selects. -/
def TextureView.construct (src : TextureViewSource) (s : RcState) :
    TextureView × RcState :=
  match src with
  | TextureViewSource.view v => TextureView.fromView v s
  | TextureViewSource.frame f => TextureView.fromFrame f s

/-- a is released strictly before b in the trace l: some occurrence of a
precedes some occurrence of b. -/
def releasedBefore (l : List Nat) (a b : Nat) : Prop :=
  ∃ l1 l2 l3, l = l1 ++ a :: l2 ++ b :: l3

/-! Helper lemmas about the reference-count state. -/

theorem dropAddr_counts_ne (s : RcState) (a b : Nat) (h : b ≠ a) :
    (s.dropAddr a).counts b = s.counts b := by
  unfold RcState.dropAddr
  split
  · rfl
  · split <;> simp [h]

theorem dropAddr_released (s : RcState) (a : Nat) :
    (s.dropAddr a).released = s.released ++ (if s.counts a = 1 then [a] else []) := by
  unfold RcState.dropAddr
  split <;> rename_i h1
  · simp [h1]
  · split <;> rename_i h2 <;> simp [h2]

theorem releasedBefore_append (l : List Nat) (a b : Nat) :
    releasedBefore (l ++ [a, b]) a b :=
  ⟨l, [], [], by simp⟩

theorem fromFrame_drop_trace (f : wgpu.SurfaceTexture) (s : RcState) :
    ((TextureView.fromFrame f s).1.drop (TextureView.fromFrame f s).2).released
      = s.released ++ [s.next, s.next + 1] := by
  simp [TextureView.fromFrame, TextureView.drop, ErasedHandle.new, RcState.freshId,
    RcState.dropAddr]

/-- C1: a frame-backed TextureView constructed by From of wgpu::SurfaceTexture
and then dropped with no clones taken releases the erased derived view strictly
before the erased swapchain frame: the release trace gains exactly the view
address followed by the frame address. -/
theorem frameBacked_drop_releases_view_before_frame (f : wgpu.SurfaceTexture)
    (s : RcState) :
    ∃ view texture,
      (TextureView.fromFrame f s).1.value
        = TextureViewValue.surfaceTexture view texture ∧
      ((TextureView.fromFrame f s).1.drop (TextureView.fromFrame f s).2).released
        = s.released ++ [view.addr, texture.addr] ∧
      releasedBefore
        (((TextureView.fromFrame f s).1.drop (TextureView.fromFrame f s).2).released)
        view.addr texture.addr := by
  refine ⟨⟨s.next, wgpu.Texture.create_view f.texture default⟩, ⟨s.next + 1, f⟩,
    rfl, fromFrame_drop_trace f s, ?_⟩
  rw [fromFrame_drop_trace]
  exact releasedBefore_append _ _ _

/-- C6: From of wgpu::SurfaceTexture yields the frame-backed variant holding a
view derived from the frame by the native create_view call with the default
descriptor, carries the fresh identity (the current counter value, which is
then bumped), allocates the view handle (address next) ahead of the frame
handle (address next + 1), and automatic teardown releases the view strictly
before the frame. -/
theorem fromFrame_constructs_frameBacked (f : wgpu.SurfaceTexture) (s : RcState) :
    (TextureView.fromFrame f s).1
      = ⟨⟨s.nextId⟩, TextureViewValue.surfaceTexture
          ⟨s.next, wgpu.Texture.create_view f.texture default⟩ ⟨s.next + 1, f⟩⟩ ∧
    (TextureView.fromFrame f s).2.nextId = s.nextId + 1 ∧
    releasedBefore
      (((TextureView.fromFrame f s).1.drop (TextureView.fromFrame f s).2).released)
      s.next (s.next + 1) := by
  refine ⟨rfl, rfl, ?_⟩
  rw [fromFrame_drop_trace]
  exact releasedBefore_append _ _ _

/-- C7: Texture::create_view calls the native create_view of the underlying
texture with the given descriptor and wraps the result as a Plain-variant
TextureView with a fresh identity. -/
theorem create_view_delegates (t : Texture) (desc : TextureViewDescriptor)
    (s : RcState) :
    (Texture.create_view t desc s).1
      = ⟨⟨s.nextId⟩,
          TextureViewValue.textureView ⟨s.next, wgpu.Texture.create_view t.deref desc⟩⟩ ∧
    (Texture.create_view t desc s).2.nextId = s.nextId + 1 :=
  ⟨rfl, rfl⟩

/-- C8: dereferencing a TextureView yields a native view in every variant: the
stored view for a Plain view, the derived view for a frame-backed view, with
no branching required of the caller. -/
theorem deref_yields_native_view (s : RcState) (v : wgpu.TextureView)
    (f : wgpu.SurfaceTexture) (tv : TextureView) :
    (TextureView.fromView v s).1.deref = v ∧
    (TextureView.fromFrame f s).1.deref
      = wgpu.Texture.create_view f.texture default ∧
    ((∃ h, tv.value = TextureViewValue.textureView h ∧ tv.deref = h.value) ∨
      (∃ vw t, tv.value = TextureViewValue.surfaceTexture vw t ∧
        tv.deref = vw.value)) := by
  refine ⟨rfl, rfl, ?_⟩
  cases htv : tv.value with
  | textureView h => exact Or.inl ⟨h, rfl, by simp [TextureView.deref, htv]⟩
  | surfaceTexture vw t => exact Or.inr ⟨vw, t, rfl, by simp [TextureView.deref, htv]⟩

theorem dropAddr_counts_self (s : RcState) (a : Nat) :
    (s.dropAddr a).counts a = s.counts a - 1 := by
  unfold RcState.dropAddr
  split <;> rename_i h1
  · simp [h1]
  · split <;> rename_i h2
    · simp [h2]
    · simp

theorem tryUnwrap_released (h : ErasedHandle T) (s : RcState) :
    (h.tryUnwrap s).2.released = s.released := by
  unfold ErasedHandle.tryUnwrap
  split <;> rename_i h1
  · rfl
  · rw [dropAddr_released]
    simp [h1]

theorem tryUnwrap_counts_ne (h : ErasedHandle T) (s : RcState) (b : Nat)
    (hb : b ≠ h.addr) : (h.tryUnwrap s).2.counts b = s.counts b := by
  unfold ErasedHandle.tryUnwrap
  split
  · simp [hb]
  · exact dropAddr_counts_ne s h.addr b hb

theorem eventBefore_pair (a b : TakeEvent) (hab : a ≠ b) :
    eventBefore [a, b] a b := by
  refine ⟨by simp, by simp, ?_⟩
  have h0 : List.indexOf a [a, b] = 0 := List.indexOf_cons_self a [b]
  have h1 : List.indexOf b [a, b] = 1 := by
    rw [List.indexOf_cons_ne [b] hab, List.indexOf_cons_self]
  rw [h0, h1]
  omega

/-- C3 counterexample: take_surface_texture on a Plain TextureView does mutate
state. With the sole clone of the erased view at address 0, the call consumes
the view and releases it, so the release trace changes. -/
theorem take_plain_mutates_state_cex :
    (TextureView.take_surface_texture
        ⟨⟨0⟩, TextureViewValue.textureView ⟨0, wgpu.TextureView.raw 0⟩⟩
        ⟨1, fun a => if a = 0 then 1 else 0, [], 1⟩).2.released
      ≠ (⟨1, fun a => if a = 0 then 1 else 0, [], 1⟩ : RcState).released := by
  decide

/-- C3 (amended): take_surface_texture on a Plain TextureView returns None and
never touches a frame handle; the only state effect is dropping the consumed
erased view handle itself, decrementing its count (releasing the native view
exactly when this was its last clone) and leaving every other address
untouched. -/
theorem take_plain_returns_none (i : TextureViewId) (h : ErasedTextureView)
    (s : RcState) :
    (TextureView.take_surface_texture
        ⟨i, TextureViewValue.textureView h⟩ s).1 = none ∧
    (TextureView.take_surface_texture
        ⟨i, TextureViewValue.textureView h⟩ s).2.counts h.addr
      = s.counts h.addr - 1 ∧
    (∀ a, a ≠ h.addr →
      (TextureView.take_surface_texture
          ⟨i, TextureViewValue.textureView h⟩ s).2.counts a = s.counts a) ∧
    (TextureView.take_surface_texture
        ⟨i, TextureViewValue.textureView h⟩ s).2.released
      = s.released ++ (if s.counts h.addr = 1 then [h.addr] else []) :=
  ⟨rfl, dropAddr_counts_self s h.addr,
    fun a ha => dropAddr_counts_ne s h.addr a ha, dropAddr_released s h.addr⟩

/-- Witness for the amended C3 theorem at a concrete Plain view and state. -/
theorem take_plain_returns_none_witness :
    (3 : Nat) ≠ 0 ∧
    (TextureView.take_surface_texture
        ⟨⟨0⟩, TextureViewValue.textureView ⟨0, wgpu.TextureView.raw 5⟩⟩
        RcState.init).2.counts 3 = RcState.init.counts 3 :=
  ⟨by decide,
    (take_plain_returns_none ⟨0⟩ ⟨0, wgpu.TextureView.raw 5⟩ RcState.init).2.2.1 3
      (by decide)⟩

/-- Concrete state for witnesses: one allocation at address 0 with one clone. -/
def sOne : RcState :=
  ⟨1, fun a => if a = 0 then 1 else 0, [], 0⟩

/-- Concrete state for witnesses: one allocation at address 0 with two clones. -/
def sTwo : RcState :=
  ⟨1, fun a => if a = 0 then 2 else 0, [], 0⟩

/-- C4: try_unwrap with clone count exactly 1 returns the wrapped native
resource (and nothing is released: ownership moves out); with clone count 2 or
more it returns nothing, the count drops by one for the consumed handle, the
native resource is not released, and a remaining clone still dereferences to
it. -/
theorem tryUnwrap_sole_or_shared (h : ErasedHandle T) (s : RcState) (c : Nat)
    (hc : s.counts h.addr = c) :
    (c = 1 → (h.tryUnwrap s).1 = some h.value ∧
      (h.tryUnwrap s).2.released = s.released) ∧
    (2 ≤ c → (h.tryUnwrap s).1 = none ∧
      (h.tryUnwrap s).2.counts h.addr = c - 1 ∧
      (h.tryUnwrap s).2.released = s.released ∧
      ErasedHandle.derefAlive ⟨h.addr, h.value⟩ (h.tryUnwrap s).2
        = some h.value) := by
  constructor
  · intro h1
    subst h1
    constructor
    · simp [ErasedHandle.tryUnwrap, hc]
    · exact tryUnwrap_released h s
  · intro h2
    have hne : ¬ s.counts h.addr = 1 := by omega
    have hfst : (h.tryUnwrap s).1 = none := by
      simp [ErasedHandle.tryUnwrap, hne]
    have hsnd : (h.tryUnwrap s).2 = s.dropAddr h.addr := by
      simp [ErasedHandle.tryUnwrap, hne]
    have hcount : (h.tryUnwrap s).2.counts h.addr = c - 1 := by
      rw [hsnd, dropAddr_counts_self, hc]
    refine ⟨hfst, hcount, tryUnwrap_released h s, ?_⟩
    unfold ErasedHandle.derefAlive
    rw [hcount, if_pos (by omega)]

/-- Witness for the C4 theorem: a sole handle (count 1) yields the value; with
count 2 the unwrap fails, the count drops to 1, nothing is released and the
remaining clone still dereferences. -/
theorem tryUnwrap_sole_or_shared_witness :
    ((ErasedHandle.tryUnwrap (⟨0, 5⟩ : ErasedHandle Nat) sOne).1 = some 5 ∧
      (ErasedHandle.tryUnwrap (⟨0, 5⟩ : ErasedHandle Nat) sOne).2.released
        = sOne.released) ∧
    ((ErasedHandle.tryUnwrap (⟨0, 5⟩ : ErasedHandle Nat) sTwo).1 = none ∧
      (ErasedHandle.tryUnwrap (⟨0, 5⟩ : ErasedHandle Nat) sTwo).2.counts 0
        = 2 - 1 ∧
      (ErasedHandle.tryUnwrap (⟨0, 5⟩ : ErasedHandle Nat) sTwo).2.released
        = sTwo.released ∧
      ErasedHandle.derefAlive ⟨0, 5⟩
          (ErasedHandle.tryUnwrap (⟨0, 5⟩ : ErasedHandle Nat) sTwo).2
        = some 5) :=
  ⟨(tryUnwrap_sole_or_shared (⟨0, 5⟩ : ErasedHandle Nat) sOne 1 rfl).1 rfl,
    (tryUnwrap_sole_or_shared (⟨0, 5⟩ : ErasedHandle Nat) sTwo 2 rfl).2
      (by decide)⟩

theorem dropAddr_iterate_releases (c : Nat) :
    ∀ s : RcState, ∀ a : Nat, s.counts a = c → 0 < c →
      a ∈ ((fun st => RcState.dropAddr st a)^[c] s).released := by
  induction c with
  | zero =>
    intro s a _ h0
    exact absurd h0 (by omega)
  | succ n ih =>
    intro s a hc _
    cases Nat.eq_zero_or_pos n with
    | inl h0 =>
      subst h0
      rw [Function.iterate_one]
      rw [dropAddr_released, hc]
      simp
    | inr hpos =>
      rw [Function.iterate_succ_apply]
      apply ih
      · rw [dropAddr_counts_self, hc]
        omega
      · exact hpos

/-- C2: take_surface_texture consumes the TextureView. On a frame-backed view
whose frame handle has clone count c, it returns the native frame exactly when
c = 1 (no other clone of the frame handle exists). Otherwise it returns
nothing; the frame then remains owned by the remaining clones (count c - 1,
still positive, not released) and is releasable once every remaining clone is
also dropped. -/
theorem take_frame_iff_sole_clone (i : TextureViewId) (view : ErasedTextureView)
    (texture : ErasedSurfaceTexture) (s : RcState) (c : Nat)
    (hWF : s.WF) (hne : view.addr ≠ texture.addr)
    (hc : s.counts texture.addr = c) (hpos : 0 < c) :
    ((TextureView.take_surface_texture
        ⟨i, TextureViewValue.surfaceTexture view texture⟩ s).1
      = some texture.value ↔ c = 1) ∧
    (c ≠ 1 →
      (TextureView.take_surface_texture
          ⟨i, TextureViewValue.surfaceTexture view texture⟩ s).1 = none ∧
      (TextureView.take_surface_texture
          ⟨i, TextureViewValue.surfaceTexture view texture⟩ s).2.counts
          texture.addr = c - 1 ∧
      0 < c - 1 ∧
      texture.addr ∉ (TextureView.take_surface_texture
          ⟨i, TextureViewValue.surfaceTexture view texture⟩ s).2.released ∧
      texture.addr ∈
        ((fun st => RcState.dropAddr st texture.addr)^[c - 1]
          (TextureView.take_surface_texture
            ⟨i, TextureViewValue.surfaceTexture view texture⟩ s).2).released) := by
  by_cases h1 : c = 1
  · constructor
    · have hfst : (TextureView.take_surface_texture
          ⟨i, TextureViewValue.surfaceTexture view texture⟩ s).1
          = some texture.value := by
        show (texture.tryUnwrap s).1 = some texture.value
        simp [ErasedHandle.tryUnwrap, hc, h1]
      rw [hfst]
      simp [h1]
    · intro hcon
      exact absurd h1 hcon
  · have hne1 : ¬ s.counts texture.addr = 1 := by
      rw [hc]; exact h1
    have hfst : (TextureView.take_surface_texture
        ⟨i, TextureViewValue.surfaceTexture view texture⟩ s).1 = none := by
      show (texture.tryUnwrap s).1 = none
      unfold ErasedHandle.tryUnwrap
      rw [if_neg hne1]
    have hsnd : (TextureView.take_surface_texture
        ⟨i, TextureViewValue.surfaceTexture view texture⟩ s).2
        = (s.dropAddr texture.addr).dropAddr view.addr := by
      show ((texture.tryUnwrap s).2).dropAddr view.addr = _
      unfold ErasedHandle.tryUnwrap
      rw [if_neg hne1]
    have hcount : ((s.dropAddr texture.addr).dropAddr view.addr).counts
        texture.addr = c - 1 := by
      rw [dropAddr_counts_ne (s.dropAddr texture.addr) view.addr texture.addr
        (Ne.symm hne), dropAddr_counts_self, hc]
    have hnotrel : texture.addr ∉ s.released :=
      hWF.2.2 texture.addr (by rw [hc]; exact hpos)
    constructor
    · rw [hfst]
      simp [h1]
    · intro _
      refine ⟨hfst, ?_, by omega, ?_, ?_⟩
      · rw [hsnd]
        exact hcount
      · rw [hsnd, dropAddr_released, dropAddr_released, if_neg hne1,
          List.append_nil]
        intro hmem
        rcases List.mem_append.mp hmem with h1m | h2m
        · exact hnotrel h1m
        · by_cases hv : (s.dropAddr texture.addr).counts view.addr = 1
          · rw [if_pos hv] at h2m
            exact Ne.symm hne (List.mem_singleton.mp h2m)
          · rw [if_neg hv] at h2m
            exact absurd h2m (List.not_mem_nil _)
      · rw [hsnd]
        exact dropAddr_iterate_releases (c - 1)
          ((s.dropAddr texture.addr).dropAddr view.addr) texture.addr hcount
          (by omega)

/-- Concrete state for the C2 witness: the view handle at address 0 has one
clone, the frame handle at address 1 has two. -/
def sFrame2 : RcState :=
  ⟨2, fun a => if a = 0 then 1 else if a = 1 then 2 else 0, [], 1⟩

/-- Witness for the C2 theorem: with two clones of the frame handle the take
fails, the frame stays owned and is releasable after the remaining clone is
dropped. -/
theorem take_frame_iff_sole_clone_witness :
    ((TextureView.take_surface_texture
        ⟨⟨0⟩, TextureViewValue.surfaceTexture ⟨0, wgpu.TextureView.raw 0⟩
          ⟨1, ⟨wgpu.Texture.raw 7, 0⟩⟩⟩ sFrame2).1
      = some ⟨wgpu.Texture.raw 7, 0⟩ ↔ (2 : Nat) = 1) ∧
    ((2 : Nat) ≠ 1 →
      (TextureView.take_surface_texture
          ⟨⟨0⟩, TextureViewValue.surfaceTexture ⟨0, wgpu.TextureView.raw 0⟩
            ⟨1, ⟨wgpu.Texture.raw 7, 0⟩⟩⟩ sFrame2).1 = none ∧
      (TextureView.take_surface_texture
          ⟨⟨0⟩, TextureViewValue.surfaceTexture ⟨0, wgpu.TextureView.raw 0⟩
            ⟨1, ⟨wgpu.Texture.raw 7, 0⟩⟩⟩ sFrame2).2.counts 1 = 2 - 1 ∧
      0 < 2 - 1 ∧
      (1 : Nat) ∉ (TextureView.take_surface_texture
          ⟨⟨0⟩, TextureViewValue.surfaceTexture ⟨0, wgpu.TextureView.raw 0⟩
            ⟨1, ⟨wgpu.Texture.raw 7, 0⟩⟩⟩ sFrame2).2.released ∧
      (1 : Nat) ∈
        ((fun st => RcState.dropAddr st 1)^[2 - 1]
          (TextureView.take_surface_texture
            ⟨⟨0⟩, TextureViewValue.surfaceTexture ⟨0, wgpu.TextureView.raw 0⟩
              ⟨1, ⟨wgpu.Texture.raw 7, 0⟩⟩⟩ sFrame2).2).released) :=
  take_frame_iff_sole_clone ⟨0⟩ ⟨0, wgpu.TextureView.raw 0⟩
    ⟨1, ⟨wgpu.Texture.raw 7, 0⟩⟩ sFrame2 2
    (by
      refine ⟨?_, ?_, ?_⟩
      · intro a ha
        have ha2 : 2 ≤ a := ha
        show (if a = 0 then 1 else if a = 1 then 2 else 0) = 0
        rw [if_neg (by omega), if_neg (by omega)]
      · intro a ha
        exact absurd ha (List.not_mem_nil a)
      · intro a _
        exact List.not_mem_nil a)
    (by decide) rfl (by decide)

theorem construct_id_bump (a : TextureViewSource) (s : RcState) :
    (TextureView.construct a s).1.id = ⟨s.nextId⟩ ∧
    (TextureView.construct a s).2.nextId = s.nextId + 1 := by
  cases a <;> exact ⟨rfl, rfl⟩

/-- C5: the identity of a wrapped resource is stable across clones for all
three wrapper kinds, and two independently constructed wrapped resources (the
second construction starting from any state at or past the one left by the
first) carry different identities; the native arguments are unconstrained, so
this holds in particular when both constructions wrap equal native values. -/
theorem id_stable_across_clones_and_distinct (t : Texture) (tv : TextureView)
    (sm : Sampler) (s : RcState) (a b : TextureViewSource) (s1 s2 : RcState)
    (v1 v2 : wgpu.Texture) (s3 s4 : RcState) (w1 w2 : wgpu.Sampler)
    (s5 s6 : RcState)
    (hv : (TextureView.construct a s1).2.nextId ≤ s2.nextId)
    (ht : (Texture.fromNative v1 s3).2.nextId ≤ s4.nextId)
    (hw : (Sampler.fromNative w1 s5).2.nextId ≤ s6.nextId) :
    (Texture.clone t s).1.id = t.id ∧
    (TextureView.clone tv s).1.id = tv.id ∧
    (Sampler.clone sm s).1.id = sm.id ∧
    (TextureView.construct a s1).1.id ≠ (TextureView.construct b s2).1.id ∧
    (Texture.fromNative v1 s3).1.id ≠ (Texture.fromNative v2 s4).1.id ∧
    (Sampler.fromNative w1 s5).1.id ≠ (Sampler.fromNative w2 s6).1.id := by
  refine ⟨rfl, rfl, rfl, ?_, ?_, ?_⟩
  · have h1 := (construct_id_bump a s1).1
    have h2 := (construct_id_bump b s2).1
    have h3 := (construct_id_bump a s1).2
    rw [h1, h2]
    intro heq
    have hid : s1.nextId = s2.nextId := by simpa using heq
    omega
  · intro heq
    have h1 : (Texture.fromNative v1 s3).1.id = ⟨s3.nextId⟩ := rfl
    have h2 : (Texture.fromNative v2 s4).1.id = ⟨s4.nextId⟩ := rfl
    have h3 : (Texture.fromNative v1 s3).2.nextId = s3.nextId + 1 := rfl
    rw [h1, h2] at heq
    have hid : s3.nextId = s4.nextId := by simpa using heq
    rw [h3] at ht
    omega
  · intro heq
    have h1 : (Sampler.fromNative w1 s5).1.id = ⟨s5.nextId⟩ := rfl
    have h2 : (Sampler.fromNative w2 s6).1.id = ⟨s6.nextId⟩ := rfl
    have h3 : (Sampler.fromNative w1 s5).2.nextId = s5.nextId + 1 := rfl
    rw [h1, h2] at heq
    have hid : s5.nextId = s6.nextId := by simpa using heq
    rw [h3] at hw
    omega

/-- Witness for the C5 theorem: both members of each independently constructed
pair wrap the same native value yet get different identities. -/
theorem id_stable_across_clones_and_distinct_witness :
    (Texture.clone ⟨⟨3⟩, ⟨0, wgpu.Texture.raw 0⟩⟩ RcState.init).1.id
      = (⟨3⟩ : TextureId) ∧
    (TextureView.clone
        ⟨⟨4⟩, TextureViewValue.textureView ⟨0, wgpu.TextureView.raw 0⟩⟩
        RcState.init).1.id = (⟨4⟩ : TextureViewId) ∧
    (Sampler.clone ⟨⟨5⟩, ⟨0, wgpu.Sampler.raw 0⟩⟩ RcState.init).1.id
      = (⟨5⟩ : SamplerId) ∧
    (TextureView.construct (TextureViewSource.view (wgpu.TextureView.raw 9))
        RcState.init).1.id
      ≠ (TextureView.construct (TextureViewSource.view (wgpu.TextureView.raw 9))
          (TextureView.construct (TextureViewSource.view (wgpu.TextureView.raw 9))
            RcState.init).2).1.id ∧
    (Texture.fromNative (wgpu.Texture.raw 9) RcState.init).1.id
      ≠ (Texture.fromNative (wgpu.Texture.raw 9)
          (Texture.fromNative (wgpu.Texture.raw 9) RcState.init).2).1.id ∧
    (Sampler.fromNative (wgpu.Sampler.raw 9) RcState.init).1.id
      ≠ (Sampler.fromNative (wgpu.Sampler.raw 9)
          (Sampler.fromNative (wgpu.Sampler.raw 9) RcState.init).2).1.id :=
  id_stable_across_clones_and_distinct
    ⟨⟨3⟩, ⟨0, wgpu.Texture.raw 0⟩⟩
    ⟨⟨4⟩, TextureViewValue.textureView ⟨0, wgpu.TextureView.raw 0⟩⟩
    ⟨⟨5⟩, ⟨0, wgpu.Sampler.raw 0⟩⟩ RcState.init
    (TextureViewSource.view (wgpu.TextureView.raw 9))
    (TextureViewSource.view (wgpu.TextureView.raw 9))
    RcState.init
    (TextureView.construct (TextureViewSource.view (wgpu.TextureView.raw 9))
      RcState.init).2
    (wgpu.Texture.raw 9) (wgpu.Texture.raw 9) RcState.init
    (Texture.fromNative (wgpu.Texture.raw 9) RcState.init).2
    (wgpu.Sampler.raw 9) (wgpu.Sampler.raw 9) RcState.init
    (Sampler.fromNative (wgpu.Sampler.raw 9) RcState.init).2
    (by decide) (by decide) (by decide)

/-- C9: derive(Clone) preserves both the identity and the payload variant: the
clone of a Plain view is Plain with the same erased view handle (its count
incremented), and the clone of a frame-backed view is frame-backed, cloning
both the erased view and the erased frame handle. The remaining operations
either leave the view untouched (id, Deref) or consume it
(take_surface_texture), so cloning is the only way to obtain another view
and it never changes the variant. -/
theorem textureView_clone_preserves_variant (tv : TextureView) (s : RcState) :
    (tv.clone s).1.id = tv.id ∧
    (∀ h, tv.value = TextureViewValue.textureView h →
      (tv.clone s).1.value = TextureViewValue.textureView h ∧
      (tv.clone s).2.counts h.addr = s.counts h.addr + 1) ∧
    (∀ vw t, tv.value = TextureViewValue.surfaceTexture vw t →
      (tv.clone s).1.value = TextureViewValue.surfaceTexture vw t ∧
      (vw.addr ≠ t.addr →
        (tv.clone s).2.counts vw.addr = s.counts vw.addr + 1 ∧
        (tv.clone s).2.counts t.addr = s.counts t.addr + 1)) := by
  obtain ⟨i, val⟩ := tv
  refine ⟨rfl, ?_, ?_⟩
  · intro h hval
    simp only at hval
    subst hval
    constructor
    · rfl
    · simp [TextureView.clone, TextureViewValue.clone, ErasedHandle.clone]
  · intro vw t hval
    simp only at hval
    subst hval
    refine ⟨rfl, ?_⟩
    intro hne
    constructor
    · simp [TextureView.clone, TextureViewValue.clone, ErasedHandle.clone, hne]
    · simp [TextureView.clone, TextureViewValue.clone, ErasedHandle.clone,
        hne, Ne.symm hne]

/-- Witness for the C9 theorem at a concrete frame-backed view: the clone
keeps the variant and both handle counts go up by one. -/
theorem textureView_clone_preserves_variant_witness :
    (TextureView.clone
        ⟨⟨0⟩, TextureViewValue.surfaceTexture ⟨0, wgpu.TextureView.raw 1⟩
          ⟨1, ⟨wgpu.Texture.raw 2, 3⟩⟩⟩ sFrame2).1.value
      = TextureViewValue.surfaceTexture ⟨0, wgpu.TextureView.raw 1⟩
          ⟨1, ⟨wgpu.Texture.raw 2, 3⟩⟩ ∧
    ((TextureView.clone
        ⟨⟨0⟩, TextureViewValue.surfaceTexture ⟨0, wgpu.TextureView.raw 1⟩
          ⟨1, ⟨wgpu.Texture.raw 2, 3⟩⟩⟩ sFrame2).2.counts 0
      = sFrame2.counts 0 + 1 ∧
     (TextureView.clone
        ⟨⟨0⟩, TextureViewValue.surfaceTexture ⟨0, wgpu.TextureView.raw 1⟩
          ⟨1, ⟨wgpu.Texture.raw 2, 3⟩⟩⟩ sFrame2).2.counts 1
      = sFrame2.counts 1 + 1) :=
  ⟨((textureView_clone_preserves_variant
      ⟨⟨0⟩, TextureViewValue.surfaceTexture ⟨0, wgpu.TextureView.raw 1⟩
        ⟨1, ⟨wgpu.Texture.raw 2, 3⟩⟩⟩ sFrame2).2.2
      ⟨0, wgpu.TextureView.raw 1⟩ ⟨1, ⟨wgpu.Texture.raw 2, 3⟩⟩ rfl).1,
   ((textureView_clone_preserves_variant
      ⟨⟨0⟩, TextureViewValue.surfaceTexture ⟨0, wgpu.TextureView.raw 1⟩
        ⟨1, ⟨wgpu.Texture.raw 2, 3⟩⟩⟩ sFrame2).2.2
      ⟨0, wgpu.TextureView.raw 1⟩ ⟨1, ⟨wgpu.Texture.raw 2, 3⟩⟩ rfl).2
      (by decide)⟩

/-- C10 counterexample: at a concrete frame-backed TextureView, the drop of
the erased derived view (address 0) does not precede the try_unwrap attempt
on the frame handle (address 1) in the execution order of
take_surface_texture: the rest pattern moves only the frame handle, so the
view stays in self and is dropped at function scope exit, after the attempt. -/
theorem take_view_drop_not_before_unwrap_cex :
    ¬ eventBefore
      (TextureView.take_surface_texture_events
        ⟨⟨0⟩, TextureViewValue.surfaceTexture ⟨0, wgpu.TextureView.raw 0⟩
          ⟨1, ⟨wgpu.Texture.raw 7, 0⟩⟩⟩)
      (TakeEvent.dropViewHandle 0) (TakeEvent.unwrapAttempt 1) := by
  decide

/-- C10 (amended): in take_surface_texture on a frame-backed TextureView,
try_unwrap is attempted on the frame handle first, and the erased derived
view, left in self by the pattern, is dropped afterwards at function scope
exit, for every call regardless of the unwrap outcome. The final state is
try_unwrap followed by the view drop; the release trace of the call gains the
view address exactly when the view handle was sole and never the frame
address (a successful unwrap moves ownership out and a failed one leaves
clones alive), so the view is still released before any later release of the
frame on the take path as well as on plain drop. -/
theorem take_frameBacked_unwraps_then_drops_view (i : TextureViewId)
    (view : ErasedTextureView) (texture : ErasedSurfaceTexture) (s : RcState)
    (hne : view.addr ≠ texture.addr) :
    eventBefore
      (TextureView.take_surface_texture_events
        ⟨i, TextureViewValue.surfaceTexture view texture⟩)
      (TakeEvent.unwrapAttempt texture.addr)
      (TakeEvent.dropViewHandle view.addr) ∧
    TextureView.take_surface_texture
        ⟨i, TextureViewValue.surfaceTexture view texture⟩ s
      = ((texture.tryUnwrap s).1, (texture.tryUnwrap s).2.dropAddr view.addr) ∧
    (TextureView.take_surface_texture
        ⟨i, TextureViewValue.surfaceTexture view texture⟩ s).2.released
      = s.released ++ (if s.counts view.addr = 1 then [view.addr] else []) := by
  refine ⟨?_, rfl, ?_⟩
  · show eventBefore
      [TakeEvent.unwrapAttempt texture.addr, TakeEvent.dropViewHandle view.addr]
      (TakeEvent.unwrapAttempt texture.addr)
      (TakeEvent.dropViewHandle view.addr)
    exact eventBefore_pair _ _ (by simp)
  · show ((texture.tryUnwrap s).2.dropAddr view.addr).released = _
    rw [dropAddr_released, tryUnwrap_released,
      tryUnwrap_counts_ne texture s view.addr hne]

/-- Witness for the amended C10 theorem at a concrete frame-backed view whose
view handle is sole and whose frame handle has two clones. -/
theorem take_frameBacked_unwraps_then_drops_view_witness :
    eventBefore
      (TextureView.take_surface_texture_events
        ⟨⟨0⟩, TextureViewValue.surfaceTexture ⟨0, wgpu.TextureView.raw 0⟩
          ⟨1, ⟨wgpu.Texture.raw 7, 0⟩⟩⟩)
      (TakeEvent.unwrapAttempt 1) (TakeEvent.dropViewHandle 0) ∧
    TextureView.take_surface_texture
        ⟨⟨0⟩, TextureViewValue.surfaceTexture ⟨0, wgpu.TextureView.raw 0⟩
          ⟨1, ⟨wgpu.Texture.raw 7, 0⟩⟩⟩ sFrame2
      = ((ErasedHandle.tryUnwrap
            (⟨1, ⟨wgpu.Texture.raw 7, 0⟩⟩ : ErasedSurfaceTexture) sFrame2).1,
          (ErasedHandle.tryUnwrap
            (⟨1, ⟨wgpu.Texture.raw 7, 0⟩⟩ : ErasedSurfaceTexture) sFrame2).2.dropAddr 0) ∧
    (TextureView.take_surface_texture
        ⟨⟨0⟩, TextureViewValue.surfaceTexture ⟨0, wgpu.TextureView.raw 0⟩
          ⟨1, ⟨wgpu.Texture.raw 7, 0⟩⟩⟩ sFrame2).2.released
      = sFrame2.released ++ (if sFrame2.counts 0 = 1 then [0] else []) :=
  take_frameBacked_unwraps_then_drops_view ⟨0⟩ ⟨0, wgpu.TextureView.raw 0⟩
    ⟨1, ⟨wgpu.Texture.raw 7, 0⟩⟩ sFrame2 (by decide)
